import Mathlib

/-!
Shallow embedding of the credential service in `src/main.py` (FastAPI auth stub),
together with proofs about the properties of its token codec, key store and
verification handlers.

Modelling conventions:
* `int(time.time())` is passed in explicitly as a `now : Int` argument.
* A JWT produced by `jwt.encode(payload, key, HS256)` is modelled as the payload
  plus the signing key (`sig_key`); verifying with key `k` succeeds exactly when
  `k = sig_key`, which captures HMAC tamper evidence.
* The Python `dict` used as `API_KEY_DATABASE` is modelled as an association
  list with Python `dict` assignment/lookup semantics (`dictSet`/`dictGet`);
  keys are unique by construction of `dictSet`.
* `os.urandom(16).hex()` is modelled as an explicit `randhex : String` input.
* Exceptions (`HTTPException`) become the error branch of `Except`.
-/

set_option autoImplicit false

namespace AuthService

/-- `HTTPException(status_code=..., detail=...)` as raised by the handlers. -/
structure HTTPException where
  status_code : Nat
  detail : String
deriving DecidableEq

/-- `TokenPayload`: the JWT payload `{"user_id": ..., "role": ..., "exp": ...}`. -/
structure TokenPayload where
  user_id : Int
  role : String
  exp : Int
deriving DecidableEq

/-- The result of `jwt.encode({user_id, role, exp}, key, algorithm="HS256")`:
the encoded claims plus the key that produced the HMAC signature.  Verifying
with key `k` succeeds exactly when `k = sig_key`. -/
structure SignedToken where
  user_id : Int
  role : String
  exp : Int
  sig_key : String
deriving DecidableEq

/-- `VerifyResult(user_id=..., role=...)`: the identity returned to the gateway. -/
structure VerifyResult where
  user_id : Int
  role : String
deriving DecidableEq

/-- `os.getenv(name, default)`: the variable's value when set (even if empty),
otherwise the default. -/
def getenv (value : Option String) (default : String) : String :=
  value.getD default

/-- `JWT_SECRET_KEY = os.getenv("JWT_SECRET_KEY", "your-super-secret-default-key")`
(src/main.py line 12); `env` is the environment variable's state. -/
def JWT_SECRET_KEY (env : Option String) : String :=
  getenv env "your-super-secret-default-key"

/-- `create_access_token(user_id, role, expires_delta)` (src/main.py lines 57-61):
`expire = int(time.time()) + expires_delta`, then encode and sign with the
process secret. -/
def create_access_token (user_id : Int) (role : String) (expires_delta : Int)
    (now : Int) (secret : String) : SignedToken :=
  { user_id := user_id, role := role, exp := now + expires_delta, sig_key := secret }

/-- `decode_access_token(token)` (src/main.py lines 63-74):
`jwt.decode(token, JWT_SECRET_KEY, algorithms=[HS256])` succeeds when the
signature matches and the token is not expired (`jose` treats the token as
expired when `exp < now`); every `JWTError` — wrong signature and expiry
alike — is mapped to the single `HTTPException(401, "Invalid or expired token
signature.")`. -/
def decode_access_token (token : SignedToken) (secret : String) (now : Int) :
    Except HTTPException TokenPayload :=
  if token.sig_key = secret ∧ now ≤ token.exp then
    .ok { user_id := token.user_id, role := token.role, exp := token.exp }
  else
    .error { status_code := 401, detail := "Invalid or expired token signature." }

/-- `UserData`: a record of `API_KEY_DATABASE`. -/
structure UserData where
  user_id : Int
  role : String
  issued_at : Int
deriving DecidableEq

/-- The key database: a Python `dict` from key strings to records. -/
abbrev KeyDB := List (String × UserData)

/-- Python `d.get(k)`: the value stored under `k`, if any. -/
def dictGet : KeyDB → String → Option UserData
  | [], _ => none
  | (k', v) :: rest, k => if k' = k then some v else dictGet rest k

/-- Python `d[k] = v`: replace the value in place when `k` is present,
otherwise append the new entry. -/
def dictSet : KeyDB → String → UserData → KeyDB
  | [], k, v => [(k, v)]
  | (k', v') :: rest, k, v =>
      if k' = k then (k, v) :: rest else (k', v') :: dictSet rest k v

/-- The keys currently stored in the database. -/
def dbKeys (db : KeyDB) : List String :=
  db.map Prod.fst

/-- The seeded `API_KEY_DATABASE` (src/main.py lines 17-28); `t0` is
`int(time.time())` at module load. -/
def API_KEY_DATABASE (t0 : Int) : KeyDB :=
  [("SECRET_B2B_KEY_001",
      { user_id := 9001, role := "system_admin", issued_at := t0 }),
   ("SECRET_ANALYTICS_KEY_002",
      { user_id := 9002, role := "analytics_reader", issued_at := t0 })]

/-- `POST /auth/login` (src/main.py lines 81-89): reject unless the credentials
are exactly `("admin", "secure_pass")`; on success issue a token for
`(user_id=1, role="admin")` with `expires_delta=3600`. -/
def login_for_access_token (username password : String) (now : Int)
    (secret : String) : Except HTTPException SignedToken :=
  if username ≠ "admin" ∨ password ≠ "secure_pass" then
    .error { status_code := 400, detail := "Incorrect username or password" }
  else
    .ok (create_access_token 1 "admin" 3600 now secret)

/-- `POST /auth/key/issue` (src/main.py lines 92-97):
`new_key = "GENERATED_KEY_" + os.urandom(16).hex()`; the random hex is the
`randhex` argument.  Stores the fixed record `{user_id: 9003, role:
"service_user", issued_at: now}` under the new key — with no collision check —
and returns the key together with the updated database. -/
def issue_api_key (db : KeyDB) (randhex : String) (now : Int) : String × KeyDB :=
  let new_key := "GENERATED_KEY_" ++ randhex
  (new_key,
   dictSet db new_key { user_id := 9003, role := "service_user", issued_at := now })

/-- `GET /auth/verify_jwt` (src/main.py lines 104-119): decode the token and
return `VerifyResult(user_id, role)`. -/
def verify_jwt_token (token : SignedToken) (secret : String) (now : Int) :
    Except HTTPException VerifyResult :=
  (decode_access_token token secret now).map fun p =>
    { user_id := p.user_id, role := p.role }

/-- `GET /auth/verify_apikey` (src/main.py lines 122-141): look the key up in
the database; 401 when absent, otherwise `VerifyResult` from the record. -/
def verify_api_key (db : KeyDB) (api_key : String) : Except HTTPException VerifyResult :=
  match dictGet db api_key with
  | none => .error { status_code := 401, detail := "Invalid API Key provided." }
  | some u => .ok { user_id := u.user_id, role := u.role }

/-- `GET /health` (src/main.py lines 148-153): 500 when `JWT_SECRET_KEY` is
falsy (the empty string), otherwise a status payload. -/
def health_check (secret : String) : Except HTTPException (String × String) :=
  if secret = "" then
    .error { status_code := 500, detail := "JWT Secret Key not initialized." }
  else
    .ok ("ok", "Auth Service is running.")

/-! ### Helper lemmas -/

/-- Round trip of the token codec: decoding a freshly created token with the
same secret at any time up to its expiry yields the encoded payload. -/
lemma decode_create (s : Int) (r : String) (ttl now now' : Int) (secret : String)
    (hclock : now' ≤ now + ttl) :
    decode_access_token (create_access_token s r ttl now secret) secret now' =
      .ok { user_id := s, role := r, exp := now + ttl } := by
  simp [decode_access_token, create_access_token, hclock]

/-- Facade version of the round trip, producing the `VerifyResult`. -/
lemma verify_jwt_create (s : Int) (r : String) (ttl now now' : Int) (secret : String)
    (hclock : now' ≤ now + ttl) :
    verify_jwt_token (create_access_token s r ttl now secret) secret now' =
      .ok { user_id := s, role := r } := by
  simp [verify_jwt_token, decode_create s r ttl now now' secret hclock, Except.map]

/-- Looking up the key just written by `dictSet` returns the new value. -/
lemma dictGet_dictSet_self (db : KeyDB) (k : String) (v : UserData) :
    dictGet (dictSet db k v) k = some v := by
  induction db with
  | nil => simp [dictSet, dictGet]
  | cons p rest ih =>
      obtain ⟨k', v'⟩ := p
      by_cases h : k' = k
      · simp [dictSet, dictGet, h]
      · simp [dictSet, dictGet, h, ih]

/-- A key present after `dictSet` was present before or is the written key. -/
lemma mem_dbKeys_dictSet (db : KeyDB) (k k' : String) (v : UserData)
    (h : k' ∈ dbKeys (dictSet db k v)) : k' ∈ dbKeys db ∨ k' = k := by
  induction db with
  | nil => simpa [dictSet, dbKeys] using h
  | cons p rest ih =>
      obtain ⟨k₀, v₀⟩ := p
      by_cases hk : k₀ = k
      · simp only [dictSet, if_pos hk, dbKeys, List.map_cons, List.mem_cons] at h ⊢
        rcases h with h | h
        · exact Or.inr h
        · exact Or.inl (Or.inr h)
      · simp only [dictSet, if_neg hk, dbKeys, List.map_cons, List.mem_cons] at h ⊢
        rcases h with h | h
        · exact Or.inl (Or.inl h)
        · rcases ih h with h' | h'
          · exact Or.inl (Or.inr h')
          · exact Or.inr h'

/-- `dictSet` preserves distinctness of the stored keys. -/
lemma nodup_dbKeys_dictSet (db : KeyDB) (k : String) (v : UserData)
    (h : (dbKeys db).Nodup) : (dbKeys (dictSet db k v)).Nodup := by
  induction db with
  | nil => simp [dictSet, dbKeys]
  | cons p rest ih =>
      obtain ⟨k₀, v₀⟩ := p
      simp only [dbKeys, List.map_cons, List.nodup_cons] at h
      by_cases hk : k₀ = k
      · simp only [dictSet, if_pos hk, dbKeys, List.map_cons, List.nodup_cons]
        exact ⟨hk ▸ h.1, h.2⟩
      · simp only [dictSet, if_neg hk, dbKeys, List.map_cons, List.nodup_cons]
        refine ⟨fun hmem => ?_, ih h.2⟩
        rcases mem_dbKeys_dictSet rest k k₀ v hmem with h' | h'
        · exact h.1 h'
        · exact hk h'

/-- Appending to a fixed prefix is injective on strings. -/
lemma string_append_inj (p a b : String) (h : p ++ a = p ++ b) : a = b := by
  have hd := congrArg String.data h
  simp only [String.data_append] at hd
  exact String.ext (List.append_cancel_left hd)

/-! ### Claims -/

/-- C1: for every subject id, role and ttl > 0, verifying a freshly issued
token with the same process secret at any time before (here: up to) its expiry
returns exactly the identity `{user_id := s, role := r}`. -/
theorem C1_verify_issue_roundtrip (s : Int) (r : String) (ttl now now' : Int)
    (secret : String) (httl : 0 < ttl) (hclock : now' ≤ now + ttl) :
    verify_jwt_token (create_access_token s r ttl now secret) secret now' =
      .ok { user_id := s, role := r } :=
  verify_jwt_create s r ttl now now' secret hclock

/-- Witness for C1 at `s = 1`, `r = "admin"`, `ttl = 3600`, issued and checked
at time 0. -/
theorem C1_witness :
    verify_jwt_token (create_access_token 1 "admin" 3600 0 "k") "k" 0 =
      .ok { user_id := 1, role := "admin" } :=
  C1_verify_issue_roundtrip 1 "admin" 3600 0 0 "k" (by decide) (by decide)

/-- C2 counterexample: the claim requires a *distinct* `Expired` error, but the
code maps every `JWTError` to the same `HTTPException(401, "Invalid or expired
token signature.")`.  Concretely, a correctly signed token checked after expiry
(left) and a wrongly signed token checked before expiry (right) produce the
very same error value, so no distinct `Expired` error exists. -/
theorem C2_counterexample :
    decode_access_token (create_access_token 7 "admin" 10 0 "key1") "key1" 11 =
        .error { status_code := 401,
                 detail := "Invalid or expired token signature." } ∧
      decode_access_token (create_access_token 7 "admin" 10 0 "key1") "key1" 11 =
        decode_access_token (create_access_token 7 "admin" 10 0 "key2") "key1" 5 := by
  constructor <;> rfl

/-- C2 (amended): verifying any token strictly after its encoded expiry fails,
regardless of signature validity — but with the single error
`HTTPException(401, "Invalid or expired token signature.")`, which is shared
with the invalid-signature case rather than being a distinct `Expired` error. -/
theorem C2_expired_fails (token : SignedToken) (secret : String) (now : Int)
    (hexp : token.exp < now) :
    decode_access_token token secret now =
      .error { status_code := 401,
               detail := "Invalid or expired token signature." } := by
  have h : ¬ now ≤ token.exp := not_le.mpr hexp
  simp [decode_access_token, h]

/-- Witness for C2 at a token expiring at time 10, checked at time 11. -/
theorem C2_witness :
    decode_access_token
        { user_id := 1, role := "admin", exp := 10, sig_key := "k" } "k" 11 =
      .error { status_code := 401,
               detail := "Invalid or expired token signature." } :=
  C2_expired_fails { user_id := 1, role := "admin", exp := 10, sig_key := "k" }
    "k" 11 (by decide)

/-- C3 counterexample: the claim requires a *distinct* `InvalidSignature`
error, but the code returns the same `HTTPException(401, ...)` for a token
signed with a different secret (left) as for an expired, correctly signed
token (right): the wrong-signature failure is real but not distinct. -/
theorem C3_counterexample :
    decode_access_token (create_access_token 2 "user" 100 0 "otherkey")
        "processkey" 1 =
        .error { status_code := 401,
                 detail := "Invalid or expired token signature." } ∧
      decode_access_token (create_access_token 2 "user" 100 0 "otherkey")
          "processkey" 1 =
        decode_access_token (create_access_token 2 "user" 100 0 "processkey")
          "processkey" 999 := by
  constructor <;> rfl

/-- C3 (amended): verifying any token whose signature was made with a secret
different from the process secret fails — never returning an identity — but
with the single error `HTTPException(401, "Invalid or expired token
signature.")`, shared with the expiry case rather than a distinct
`InvalidSignature` error. -/
theorem C3_wrong_secret_fails (token : SignedToken) (secret : String) (now : Int)
    (hsig : token.sig_key ≠ secret) :
    decode_access_token token secret now =
      .error { status_code := 401,
               detail := "Invalid or expired token signature." } := by
  simp [decode_access_token, hsig]

/-- Witness for C3: a token signed with `"attacker"` checked against secret
`"process"`. -/
theorem C3_witness :
    decode_access_token
        { user_id := 5, role := "user", exp := 50, sig_key := "attacker" }
        "process" 0 =
      .error { status_code := 401,
               detail := "Invalid or expired token signature." } :=
  C3_wrong_secret_fails
    { user_id := 5, role := "user", exp := 50, sig_key := "attacker" }
    "process" 0 (by decide)

/-- C4 counterexample: when the `JWT_SECRET_KEY` environment variable is
absent, the code silently falls back to the hardcoded default
`"your-super-secret-default-key"` and the health check reports ok — it does not
fail with `Uninitialized`/500 as the claim requires. -/
theorem C4_counterexample :
    JWT_SECRET_KEY none = "your-super-secret-default-key" ∧
      health_check (JWT_SECRET_KEY none) = .ok ("ok", "Auth Service is running.") := by
  constructor <;> rfl

/-- C4 (amended): the health check fails with
`HTTPException(500, "JWT Secret Key not initialized.")` exactly when the loaded
secret is the empty string, which happens exactly when the environment variable
is set to the empty string; when the variable is absent the secret silently
falls back to the non-empty hardcoded default and health reports ok. -/
theorem C4_health_iff (env : Option String) :
    (health_check (JWT_SECRET_KEY env) =
        .error { status_code := 500, detail := "JWT Secret Key not initialized." } ↔
      env = some "") ∧
      (JWT_SECRET_KEY env ≠ "" →
        health_check (JWT_SECRET_KEY env) = .ok ("ok", "Auth Service is running.")) := by
  constructor
  · cases env with
    | none => simp [JWT_SECRET_KEY, getenv, health_check]
    | some s =>
        by_cases hs : s = ""
        · subst hs; simp [JWT_SECRET_KEY, getenv, health_check]
        · simp [JWT_SECRET_KEY, getenv, health_check, hs]
  · intro hne
    simp [health_check, hne]

/-- Witness for C4: with the variable set to the empty string the health check
returns the 500 error. -/
theorem C4_witness :
    health_check (JWT_SECRET_KEY (some "")) =
      .error { status_code := 500, detail := "JWT Secret Key not initialized." } :=
  (C4_health_iff (some "")).1.mpr rfl

/-- C5 counterexample: `issue_api_key` performs no collision check, so when
`os.urandom(16).hex()` returns the same hex twice, the second issuance returns
a key equal to the previously issued (and not revoked) key — the claim's
"never returns a previously issued key" fails. -/
theorem C5_counterexample :
    (issue_api_key
        (issue_api_key (API_KEY_DATABASE 0) "00112233445566778899aabbccddeeff" 1).2
        "00112233445566778899aabbccddeeff" 2).1 =
      (issue_api_key (API_KEY_DATABASE 0) "00112233445566778899aabbccddeeff" 1).1 :=
  rfl

/-- C5 (amended): key-value uniqueness across the stored records is preserved
by issuance (the store is a dict, so a repeated key overwrites in place rather
than duplicating), and issuances with *distinct* random values return distinct
keys; but nothing prevents a repeated random value from reproducing a
previously issued key. -/
theorem C5_keys_unique (db : KeyDB) (r₁ r₂ : String) (n₁ n₂ : Int)
    (hnodup : (dbKeys db).Nodup) :
    (dbKeys (issue_api_key db r₁ n₁).2).Nodup ∧
      (r₁ ≠ r₂ → (issue_api_key db r₁ n₁).1 ≠ (issue_api_key db r₂ n₂).1) := by
  constructor
  · exact nodup_dbKeys_dictSet db _ _ hnodup
  · intro hne heq
    exact hne (string_append_inj "GENERATED_KEY_" r₁ r₂ heq)

/-- Witness for C5 on the seeded database with random values `"aa"` and `"bb"`. -/
theorem C5_witness :
    (dbKeys (issue_api_key (API_KEY_DATABASE 0) "aa" 1).2).Nodup ∧
      ("aa" ≠ "bb" →
        (issue_api_key (API_KEY_DATABASE 0) "aa" 1).1 ≠
          (issue_api_key (API_KEY_DATABASE 0) "bb" 2).1) :=
  C5_keys_unique (API_KEY_DATABASE 0) "aa" "bb" 1 2 (by decide)

/-- C6: API-key lookup fails with `HTTPException(401, "Invalid API Key
provided.")` exactly when the key is absent from the store, and when a record
is present it returns exactly the identity `{user_id, role}` stored in the
record. -/
theorem C6_lookup_spec (db : KeyDB) (api_key : String) :
    (verify_api_key db api_key =
        .error { status_code := 401, detail := "Invalid API Key provided." } ↔
      dictGet db api_key = none) ∧
      (∀ u, dictGet db api_key = some u →
        verify_api_key db api_key = .ok { user_id := u.user_id, role := u.role }) := by
  unfold verify_api_key
  cases h : dictGet db api_key with
  | none => simp
  | some u => simp

/-- Witness for C6: the unissued key `"nope"` on the seeded database. -/
theorem C6_witness :
    (verify_api_key (API_KEY_DATABASE 0) "nope" =
        .error { status_code := 401, detail := "Invalid API Key provided." } ↔
      dictGet (API_KEY_DATABASE 0) "nope" = none) ∧
      (∀ u, dictGet (API_KEY_DATABASE 0) "nope" = some u →
        verify_api_key (API_KEY_DATABASE 0) "nope" =
          .ok { user_id := u.user_id, role := u.role }) :=
  C6_lookup_spec (API_KEY_DATABASE 0) "nope"

/-- C7 counterexample: `issue_api_key` takes no caller-supplied subject or role
— it always stores `{user_id := 9003, role := "service_user"}` — so issuing "for
(9001, system_admin)" is impossible; looking up a freshly issued key returns
`{9003, "service_user"}`, not `{9001, "system_admin"}`. -/
theorem C7_counterexample :
    verify_api_key
        (issue_api_key (API_KEY_DATABASE 0) "0123456789abcdef0123456789abcdef" 5).2
        (issue_api_key (API_KEY_DATABASE 0) "0123456789abcdef0123456789abcdef" 5).1 =
        .ok { user_id := 9003, role := "service_user" } ∧
      ({ user_id := 9003, role := "service_user" } : VerifyResult) ≠
        { user_id := 9001, role := "system_admin" } := by
  constructor
  · rfl
  · decide

/-- C7 (amended): `issue_api_key` ignores any caller-supplied identity and
always stores the fixed record `{user_id := 9003, role := "service_user"}`, so
lookup of the returned key always yields exactly `{9003, "service_user"}`. -/
theorem C7_issue_then_lookup (db : KeyDB) (randhex : String) (now : Int) :
    verify_api_key (issue_api_key db randhex now).2 (issue_api_key db randhex now).1 =
      .ok { user_id := 9003, role := "service_user" } := by
  simp [verify_api_key, issue_api_key, dictGet_dictSet_self]

/-- C8: login with `("admin", "secure_pass")` succeeds and issues a token with
the fixed default ttl 3600 that the token verifier resolves to
`{user_id := 1, role := "admin"}` up to its expiry; any other credential pair
fails with `HTTPException(400, "Incorrect username or password")`, issuing no
token. -/
theorem C8_login_spec (username password : String) (now now' : Int) (secret : String)
    (hclock : now' ≤ now + 3600) :
    (login_for_access_token "admin" "secure_pass" now secret =
        .ok (create_access_token 1 "admin" 3600 now secret)) ∧
      (verify_jwt_token (create_access_token 1 "admin" 3600 now secret) secret now' =
        .ok { user_id := 1, role := "admin" }) ∧
      (¬(username = "admin" ∧ password = "secure_pass") →
        login_for_access_token username password now secret =
          .error { status_code := 400, detail := "Incorrect username or password" }) := by
  refine ⟨by simp [login_for_access_token],
    verify_jwt_create 1 "admin" 3600 now now' secret hclock, fun hbad => ?_⟩
  rw [not_and_or] at hbad
  simp [login_for_access_token, hbad]

/-- Witness for C8 at wrong credentials `("admin", "wrong")`, issue time 0 and
check time 0. -/
theorem C8_witness :
    (login_for_access_token "admin" "secure_pass" 0 "k" =
        .ok (create_access_token 1 "admin" 3600 0 "k")) ∧
      (verify_jwt_token (create_access_token 1 "admin" 3600 0 "k") "k" 0 =
        .ok { user_id := 1, role := "admin" }) ∧
      (¬("admin" = "admin" ∧ "wrong" = "secure_pass") →
        login_for_access_token "admin" "wrong" 0 "k" =
          .error { status_code := 400, detail := "Incorrect username or password" }) :=
  C8_login_spec "admin" "wrong" 0 0 "k" (by decide)

/-- C9: every error any handler returns is one of four fixed constant values,
mentioning neither the signing secret nor any stored key value; hence the error
message of a failing request is identical under any two secrets and any two
stores, and neither the secret nor raw key values can leak through an error. -/
theorem C9_error_independence (token : SignedToken) (secret : String) (now : Int)
    (db : KeyDB) (api_key username password : String) :
    (∀ e, decode_access_token token secret now = .error e →
        e = { status_code := 401, detail := "Invalid or expired token signature." }) ∧
      (∀ e, verify_api_key db api_key = .error e →
        e = { status_code := 401, detail := "Invalid API Key provided." }) ∧
      (∀ e, login_for_access_token username password now secret = .error e →
        e = { status_code := 400, detail := "Incorrect username or password" }) ∧
      (∀ e, health_check secret = .error e →
        e = { status_code := 500, detail := "JWT Secret Key not initialized." }) := by
  refine ⟨fun e he => ?_, fun e he => ?_, fun e he => ?_, fun e he => ?_⟩
  · unfold decode_access_token at he
    split at he
    · exact absurd he (by simp)
    · simpa using he.symm
  · unfold verify_api_key at he
    split at he
    · simpa using he.symm
    · exact absurd he (by simp)
  · unfold login_for_access_token at he
    split at he
    · simpa using he.symm
    · exact absurd he (by simp)
  · unfold health_check at he
    split at he
    · simpa using he.symm
    · exact absurd he (by simp)

/-- Witness for C9: the constant JWT error, derived through the theorem from a
concrete failing decode (wrong signature). -/
theorem C9_witness :
    ({ status_code := 401, detail := "Invalid or expired token signature." } :
        HTTPException) =
      { status_code := 401, detail := "Invalid or expired token signature." } :=
  (C9_error_independence
      { user_id := 1, role := "r", exp := 10, sig_key := "a" } "b" 0 [] "k" "u" "p").1
    { status_code := 401, detail := "Invalid or expired token signature." } rfl

/-- C10: in the initial state, before any issuance, the seeded database already
resolves `"SECRET_B2B_KEY_001"` to `{9001, "system_admin"}` and
`"SECRET_ANALYTICS_KEY_002"` to `{9002, "analytics_reader"}`, whatever the
module-load timestamp was. -/
theorem C10_seeded_keys (t0 : Int) :
    verify_api_key (API_KEY_DATABASE t0) "SECRET_B2B_KEY_001" =
        .ok { user_id := 9001, role := "system_admin" } ∧
      verify_api_key (API_KEY_DATABASE t0) "SECRET_ANALYTICS_KEY_002" =
        .ok { user_id := 9002, role := "analytics_reader" } := by
  constructor <;> rfl

end AuthService
